import Mathlib

/-!
Shallow embedding of the `CanvasDrawer` class from `canvasDrawer.js`, the
stroke-rendering core of the nozzle repository.

Modelling conventions:
* Numbers are idealised as rationals (`ℚ`); times (`Date.now()` values) are
  integers (`ℤ`) passed explicitly to the operations that read the clock.
* `Math.sqrt` is an external platform function; it is abstracted as a
  parameter `sq : ℚ → ℚ` applied to the sum of squares, exactly where the
  source calls it.
* The 2D rendering context is modelled as an effect trace: every paint call
  appends a `RenderOp`, and the context's mutable style fields live in the
  drawer state.  Each `beginPath … stroke` group in the source becomes one
  `strokeLine` / `strokeEllipse` op.
* `document.getElementById` is an external DOM lookup, abstracted as an
  environment `env : String → Option String`.
-/

/-- A `{x, y}` point as passed to `startDrawing` / `draw`. -/
structure Point where
  x : ℚ
  y : ℚ
deriving DecidableEq

/-- A stroke sample `{x, y, t}` as stored in `canvasHistory`. -/
structure Sample where
  x : ℚ
  y : ℚ
  t : ℤ
deriving DecidableEq

/-- One paint effect on the canvas context. -/
inductive RenderOp where
  | clearRect (x y w h : ℚ)
  | strokeLine (style : String) (width : ℚ) (x1 y1 x2 y2 : ℚ)
  | strokeEllipse (cx cy rx ry : ℚ)
  | drawImage (img : String) (dx dy dw dh : ℚ)
deriving DecidableEq

/-- The state of a `CanvasDrawer` instance: the fields assigned in the
constructor of `canvasDrawer.js`, plus the mutable style fields of the
2D context (`strokeStyle`, `lineWidth`, `lineCap`, `lineJoin`, `filter`)
and the canvas dimensions. -/
structure CanvasDrawer where
  canvasWidth : ℚ
  canvasHeight : ℚ
  canvasHistory : List (List Sample)
  brushMode : Bool
  showGrid : Bool
  gridSize : ℚ
  isDrawing : Bool
  lastT : ℤ
  lastX : ℚ
  lastY : ℚ
  imageId : Option String
  bufferSize : ℕ
  distanceBuffer : List ℚ
  pointBuffer : List Point
  bufferIndex : ℕ
  circlesPerPixel : ℚ
  strokeStyle : String
  lineWidth : ℚ
  lineCap : String
  lineJoin : String
  filter : String
deriving DecidableEq

/-- `this.distanceBuffer.reduce((a, b) => a + b, 0) / this.bufferSize`,
the rolling mean computed in `_drawBrush` / `_drawImage`. -/
def CanvasDrawer.bufferMean (d : CanvasDrawer) : ℚ :=
  d.distanceBuffer.sum / (d.bufferSize : ℚ)

/-- `Math.sqrt((x - this.lastX) ** 2 + (y - this.lastY) ** 2)`, the segment
distance computed in `_drawBrush` / `_drawImage` (`sq` stands for the
external `Math.sqrt`). -/
def CanvasDrawer.segDist (sq : ℚ → ℚ) (d : CanvasDrawer) (x y : ℚ) : ℚ :=
  sq ((x - d.lastX) ^ 2 + (y - d.lastY) ^ 2)

/-- `Math.max(1, Math.floor(currentD * this.circlesPerPixel))`. -/
def numCirclesOf (currentD cpp : ℚ) : ℤ :=
  max 1 (Rat.floor (currentD * cpp))

/-- Line 167 of `canvasDrawer.js` (`_drawImage`):
`const r = ((avgDistance - avgDistanceLast) / numCircles) * (i + avgDistanceLast)`.
The value is computed by the source but not used to size the stamp. -/
def drawImageRadius (avgDistanceLast avgDistance : ℚ) (numCircles : ℤ) (i : ℕ) : ℚ :=
  ((avgDistance - avgDistanceLast) / (numCircles : ℚ)) * ((i : ℚ) + avgDistanceLast)

/-- Line 137 of `canvasDrawer.js` (`_drawBrush`):
`const r = ((avgDistance - avgDistanceLast) / numCircles) * i + avgDistanceLast`. -/
def drawBrushRadius (avgDistanceLast avgDistance : ℚ) (numCircles : ℤ) (i : ℕ) : ℚ :=
  ((avgDistance - avgDistanceLast) / (numCircles : ℚ)) * (i : ℚ) + avgDistanceLast

/-- Modelled from the spec: `document.getElementById(this.imageId)` and
`ctx.drawImage` on the resulting element are external DOM operations, not code
of this repository.  Per the spec's stated reference behavior ("resolves an
external image lookup and if missing, drawing silently fails"), a null handle
or a handle that does not resolve yields no image, and `_drawImage` below
emits no paint op for it. -/
def getElementById (env : String → Option String) : Option String → Option String
  | none => none
  | some id => env id

/-- The positions visited by `for (let v = 0; v < limit; v += step)`.
For `step ≤ 0` the source loop would not terminate; it is only ever run with
`step = gridSize = 20`, so that case is modelled as the empty list. -/
def gridLines (limit step : ℚ) : List ℚ :=
  if 0 < step then (List.range (Rat.ceil (limit / step)).toNat).map (fun i => (i : ℚ) * step)
  else []

/-- `_drawGrid()`: vertical then horizontal grid lines with style `#ddd`,
width 0.5, then the drawing style is restored to `#fff`, width 2. -/
def CanvasDrawer._drawGrid (d : CanvasDrawer) : CanvasDrawer × List RenderOp :=
  let vOps := (gridLines d.canvasWidth d.gridSize).map
    (fun x => RenderOp.strokeLine "#ddd" (1/2) x 0 x d.canvasHeight)
  let hOps := (gridLines d.canvasHeight d.gridSize).map
    (fun y => RenderOp.strokeLine "#ddd" (1/2) 0 y d.canvasWidth y)
  ({ d with strokeStyle := "#fff", lineWidth := 2 }, vOps ++ hOps)

/-- `_drawLine(x, y)`: one stroked segment from `lastPoint` to `(x, y)` in the
current context style. -/
def CanvasDrawer._drawLine (x y : ℚ) (d : CanvasDrawer) : CanvasDrawer × List RenderOp :=
  (d, [RenderOp.strokeLine d.strokeStyle d.lineWidth d.lastX d.lastY x y])

/-- `_drawBrush(x, y)`: updates the smoothing buffers and strokes
`numCircles + 1` ellipses of interpolated radius along the segment.
(The call to this method in `draw` is commented out in the source.) -/
def CanvasDrawer._drawBrush (sq : ℚ → ℚ) (x y : ℚ) (d : CanvasDrawer) :
    CanvasDrawer × List RenderOp :=
  let currentD := d.segDist sq x y
  let avgDistanceLast := d.bufferMean
  let db := d.distanceBuffer.set d.bufferIndex currentD
  let pb := d.pointBuffer.set d.bufferIndex ⟨x, y⟩
  let d1 := { d with distanceBuffer := db, pointBuffer := pb,
                     bufferIndex := (d.bufferIndex + 1) % d.bufferSize }
  let avgDistance := d1.bufferMean
  let numCircles := numCirclesOf currentD d.circlesPerPixel
  let ops := (List.range (numCircles.toNat + 1)).map (fun (i : ℕ) =>
    let t := (i : ℚ) / (numCircles : ℚ)
    let circleX := d.lastX + (x - d.lastX) * t
    let circleY := d.lastY + (y - d.lastY) * t
    let r := drawBrushRadius avgDistanceLast avgDistance numCircles i
    RenderOp.strokeEllipse circleX circleY r r)
  (d1, ops)

/-- `_drawImage(x, y)`: updates the smoothing buffers, then for each of the
`numCircles + 1` interpolated positions looks up the stamp image and draws it
as a fixed `200 × 200` rect centred on the position.  The interpolated radius
(`drawImageRadius`) is computed by the source but not used.  A missing image
yields no op (see `getElementById`). -/
def CanvasDrawer._drawImage (sq : ℚ → ℚ) (env : String → Option String) (x y : ℚ)
    (d : CanvasDrawer) : CanvasDrawer × List RenderOp :=
  let currentD := d.segDist sq x y
  let db := d.distanceBuffer.set d.bufferIndex currentD
  let pb := d.pointBuffer.set d.bufferIndex ⟨x, y⟩
  let d1 := { d with distanceBuffer := db, pointBuffer := pb,
                     bufferIndex := (d.bufferIndex + 1) % d.bufferSize }
  let numCircles := numCirclesOf currentD d.circlesPerPixel
  let ops := (List.range (numCircles.toNat + 1)).filterMap (fun (i : ℕ) =>
    let t := (i : ℚ) / (numCircles : ℚ)
    let circleX := d.lastX + (x - d.lastX) * t
    let circleY := d.lastY + (y - d.lastY) * t
    match getElementById env d.imageId with
    | none => none
    | some img => some (RenderOp.drawImage img (circleX - 100) (circleY - 100) 200 200))
  (d1, ops)

/-- `_clearCanvas()`: full-surface `clearRect`, then the grid if `showGrid`. -/
def CanvasDrawer._clearCanvas (d : CanvasDrawer) : CanvasDrawer × List RenderOp :=
  let p := if d.showGrid then d._drawGrid else (d, [])
  (p.1, RenderOp.clearRect 0 0 d.canvasWidth d.canvasHeight :: p.2)

/-- `clear()`: empties `canvasHistory` and clears the canvas. -/
def CanvasDrawer.clear (d : CanvasDrawer) : CanvasDrawer × List RenderOp :=
  CanvasDrawer._clearCanvas { d with canvasHistory := [] }

/-- `toggleGrid()`: flips `showGrid` and redraws via `_clearCanvas`. -/
def CanvasDrawer.toggleGrid (d : CanvasDrawer) : CanvasDrawer × List RenderOp :=
  CanvasDrawer._clearCanvas { d with showGrid := !d.showGrid }

/-- `setBrushMode(enabled)`: sets the flag and the context filter string. -/
def CanvasDrawer.setBrushMode (enabled : Bool) (d : CanvasDrawer) : CanvasDrawer :=
  { d with brushMode := enabled,
           filter := if enabled then "invert(1) opacity(10%)" else "invert(0) opacity(100%)" }

/-- `getBrushMode()`. -/
def CanvasDrawer.getBrushMode (d : CanvasDrawer) : Bool :=
  d.brushMode

/-- `setBrushImage(id)`. -/
def CanvasDrawer.setBrushImage (id : String) (d : CanvasDrawer) : CanvasDrawer :=
  { d with imageId := some id }

/-- `startDrawing(point)` called at clock value `now`:
sets `isDrawing`, `lastPoint`, pushes a fresh one-sample stroke with `t: 0`,
records `lastT = Date.now()`, and resets both smoothing buffers
(`fill(0)` / `fill(point)` keep the arrays' lengths). -/
def CanvasDrawer.startDrawing (now : ℤ) (p : Point) (d : CanvasDrawer) : CanvasDrawer :=
  { d with isDrawing := true,
           lastX := p.x, lastY := p.y,
           canvasHistory := d.canvasHistory ++ [[⟨p.x, p.y, 0⟩]],
           lastT := now,
           distanceBuffer := d.distanceBuffer.map (fun _ => 0),
           bufferIndex := 0,
           pointBuffer := d.pointBuffer.map (fun _ => ⟨p.x, p.y⟩) }

/-- The history update in `draw`:
`this.canvasHistory[len - 1].push({x, y, t: Date.now() - this.canvasHistory[len - 1][0].t})`.
On an empty history the source would fail (`undefined.push`); that point is
unreachable through the scenarios considered here and is modelled as the
identity. -/
def appendSample (hist : List (List Sample)) (now : ℤ) (p : Point) : List (List Sample) :=
  match hist.getLast? with
  | none => hist
  | some last =>
      hist.dropLast ++ [last ++ [⟨p.x, p.y, now - ((last.head?.map Sample.t).getD 0)⟩]]

/-- `draw(point)` called at clock value `now`: no-op while not drawing;
otherwise renders with `_drawImage` (brush mode — the `_drawBrush` call is
commented out) or `_drawLine`, appends the sample to the open stroke, and
updates `lastPoint`. -/
def CanvasDrawer.draw (sq : ℚ → ℚ) (env : String → Option String) (now : ℤ) (p : Point)
    (d : CanvasDrawer) : CanvasDrawer × List RenderOp :=
  if !d.isDrawing then (d, []) else
    let rendered := if d.brushMode then d._drawImage sq env p.x p.y else d._drawLine p.x p.y
    ({ rendered.1 with canvasHistory := appendSample rendered.1.canvasHistory now p,
                       lastX := p.x, lastY := p.y },
     rendered.2)

/-- `stopDrawing()`. -/
def CanvasDrawer.stopDrawing (d : CanvasDrawer) : CanvasDrawer :=
  { d with isDrawing := false }

/-- `getIsDrawing()`. -/
def CanvasDrawer.getIsDrawing (d : CanvasDrawer) : Bool :=
  d.isDrawing

/-- The argument passed to the constructor: `null`/`undefined`, or an element
that is or is not an `HTMLCanvasElement` (an external `instanceof` check),
with its dimensions. -/
inductive CanvasArg where
  | nullArg
  | element (isCanvasElement : Bool) (width height : ℚ)

/-- The field values assigned by the constructor body before `_init()`. -/
def freshDrawer (w h : ℚ) : CanvasDrawer :=
  { canvasWidth := w, canvasHeight := h,
    canvasHistory := [],
    brushMode := false,
    showGrid := true,
    gridSize := 20,
    isDrawing := false,
    lastT := 0, lastX := 0, lastY := 0,
    imageId := none,
    bufferSize := 20,
    distanceBuffer := List.replicate 20 0,
    pointBuffer := List.replicate 20 ⟨0, 0⟩,
    bufferIndex := 0,
    circlesPerPixel := 1/10,
    strokeStyle := "", lineWidth := 0, lineCap := "", lineJoin := "", filter := "" }

/-- `_init()`: initial context style, then the grid when `showGrid`. -/
def CanvasDrawer._init (d : CanvasDrawer) : CanvasDrawer × List RenderOp :=
  let d1 := { d with strokeStyle := "#fff", lineWidth := 2,
                     lineCap := "round", lineJoin := "round" }
  if d1.showGrid then d1._drawGrid else (d1, [])

/-- The constructor: throws `Invalid canvas element provided.` when the
argument is null or not an `HTMLCanvasElement`, otherwise builds the state
and runs `_init()`. -/
def mkDrawer : CanvasArg → Except String (CanvasDrawer × List RenderOp)
  | CanvasArg.nullArg => Except.error "Invalid canvas element provided."
  | CanvasArg.element isCanvas w h =>
      if isCanvas then Except.ok (freshDrawer w h)._init
      else Except.error "Invalid canvas element provided."

/-- Folds `draw` over a list of `(clock value, point)` inputs, keeping the
state and discarding the paint ops. -/
def drawMany (sq : ℚ → ℚ) (env : String → Option String) :
    List (ℤ × Point) → CanvasDrawer → CanvasDrawer
  | [], d => d
  | (t, p) :: rest, d => drawMany sq env rest (d.draw sq env t p).1

/-- Distances `sq ((p.x - prev.x)² + (p.y - prev.y)²)` between consecutive
points of `prev :: ps`, in order. -/
def segDistances (sq : ℚ → ℚ) : Point → List Point → List ℚ
  | _, [] => []
  | prev, p :: ps =>
      sq ((p.x - prev.x) ^ 2 + (p.y - prev.y) ^ 2) :: segDistances sq p ps

/-- The everywhere-failing image environment (no DOM element resolves). -/
def envNone : String → Option String := fun _ => none

/-- A `Math.sqrt` oracle for inputs lying on an axis: exact on `100`. -/
def sq100 : ℚ → ℚ := fun q => if q = 100 then 10 else 0

/-- A freshly constructed drawer (valid 40×40 canvas), still idle. -/
def demoIdle : CanvasDrawer := (freshDrawer 40 40)._init.1

/-- A drawer in stamp mode with an open stroke started at the origin. -/
def demoDrawing : CanvasDrawer :=
  (((freshDrawer 40 40)._init.1).setBrushMode true).startDrawing 0 ⟨0, 0⟩

/-- A freshly constructed drawer switched to stamp mode, not yet drawing. -/
def demoStamp : CanvasDrawer := ((freshDrawer 40 40)._init.1).setBrushMode true

/-- Stamp-mode scenario: stroke started at the origin at clock 0. -/
def stampS1 : CanvasDrawer :=
  (((freshDrawer 400 400)._init.1).setBrushMode true).startDrawing 0 ⟨0, 0⟩

/-- After drawing to `(10, 0)` (segment distance 10). -/
def stampS2 : CanvasDrawer := (stampS1.draw sq100 envNone 100 ⟨10, 0⟩).1

/-- After further drawing to `(20, 0)` (again distance 10). -/
def stampS3 : CanvasDrawer := (stampS2.draw sq100 envNone 200 ⟨20, 0⟩).1

/-- Line-mode scenario: stroke started at clock value 1000. -/
def timeDemo0 : CanvasDrawer := ((freshDrawer 400 400)._init.1).startDrawing 1000 ⟨0, 0⟩

/-- After one `draw` at clock value 1500. -/
def timeDemo1 : CanvasDrawer := (timeDemo0.draw (fun _ => 0) envNone 1500 ⟨10, 0⟩).1

/-- Bridge: the executable `Rat.floor` is Mathlib's `⌊·⌋` on `ℚ`. -/
theorem ratFloor_eq_floor (q : ℚ) : Rat.floor q = ⌊q⌋ := rfl

/-- Setting the element just past a prefix writes at the head of the suffix. -/
theorem set_append_length {α : Type} (w z : List α) (v : α) :
    (w ++ z).set w.length v = w ++ z.set 0 v := by
  induction w with
  | nil => simp
  | cons a as ih => simp [List.set, ih]

/-- How one stamp-mode `draw` call transforms the smoothing-buffer state. -/
theorem draw_stamp_state (sq : ℚ → ℚ) (env : String → Option String) (t : ℤ) (p : Point)
    (d : CanvasDrawer) (h1 : d.isDrawing = true) (h2 : d.brushMode = true) :
    (d.draw sq env t p).1.distanceBuffer
        = d.distanceBuffer.set d.bufferIndex (d.segDist sq p.x p.y)
    ∧ (d.draw sq env t p).1.bufferIndex = (d.bufferIndex + 1) % d.bufferSize
    ∧ (d.draw sq env t p).1.bufferSize = d.bufferSize
    ∧ (d.draw sq env t p).1.brushMode = true
    ∧ (d.draw sq env t p).1.isDrawing = true
    ∧ (d.draw sq env t p).1.lastX = p.x
    ∧ (d.draw sq env t p).1.lastY = p.y := by
  simp [CanvasDrawer.draw, CanvasDrawer._drawImage, h1, h2]

/-- Ring-buffer invariant: starting from a buffer holding the written prefix
`w` followed by zero fill, a run of stamp-mode `draw` calls that stays below
the capacity appends exactly the consecutive segment distances, keeping the
zero fill behind them. -/
theorem drawMany_distanceBuffer (sq : ℚ → ℚ) (env : String → Option String) :
    ∀ (ps : List (ℤ × Point)) (d : CanvasDrawer) (w : List ℚ),
    d.brushMode = true → d.isDrawing = true →
    d.bufferIndex = w.length →
    d.distanceBuffer = w ++ List.replicate (d.bufferSize - w.length) 0 →
    w.length + ps.length < d.bufferSize →
    (drawMany sq env ps d).distanceBuffer
      = (w ++ segDistances sq ⟨d.lastX, d.lastY⟩ (ps.map Prod.snd))
          ++ List.replicate (d.bufferSize - (w.length + ps.length)) 0
    ∧ (drawMany sq env ps d).bufferSize = d.bufferSize := by
  intro ps
  induction ps with
  | nil =>
      intro d w _ _ _ hbuf _
      simpa [drawMany, segDistances] using hbuf
  | cons tp rest ih =>
      intro d w hb hdr hidx hbuf hlen
      obtain ⟨t, p⟩ := tp
      obtain ⟨hdb, hbi, hbs, hbm, hdr', hlx, hly⟩ := draw_stamp_state sq env t p d hdr hb
      set d' := (d.draw sq env t p).1 with hd'
      have hwlt : w.length < d.bufferSize := by simp at hlen; omega
      have hrep : List.replicate (d.bufferSize - w.length) (0:ℚ)
          = 0 :: List.replicate (d.bufferSize - (w.length + 1)) 0 := by
        have : d.bufferSize - w.length = (d.bufferSize - (w.length + 1)) + 1 := by omega
        rw [this, List.replicate_succ]
      have hdb' : d'.distanceBuffer
          = (w ++ [d.segDist sq p.x p.y])
              ++ List.replicate (d.bufferSize - (w.length + 1)) 0 := by
        rw [hdb, hbuf, hidx, set_append_length, hrep]
        simp [List.set]
      have hbi' : d'.bufferIndex = (w ++ [d.segDist sq p.x p.y]).length := by
        rw [hbi, hidx]
        simp [Nat.mod_eq_of_lt (by simp at hlen; omega : w.length + 1 < d.bufferSize)]
      have hlen' : (w ++ [d.segDist sq p.x p.y]).length + rest.length < d'.bufferSize := by
        rw [hbs]
        simp at hlen ⊢
        omega
      have hbuf' : d'.distanceBuffer
          = (w ++ [d.segDist sq p.x p.y])
              ++ List.replicate (d'.bufferSize - (w ++ [d.segDist sq p.x p.y]).length) 0 := by
        rw [hdb', hbs]
        simp [List.length_append]
      have hmain := ih d' (w ++ [d.segDist sq p.x p.y]) hbm hdr' hbi' hbuf' hlen'
      simp only [drawMany]
      rw [← hd']
      obtain ⟨hres, hress⟩ := hmain
      refine ⟨?_, by rw [hress, hbs]⟩
      rw [hres, hlx, hly, hbs]
      have hpt : (⟨p.x, p.y⟩ : Point) = p := rfl
      have hseg : segDistances sq ⟨d.lastX, d.lastY⟩ (((t, p) :: rest).map Prod.snd)
          = d.segDist sq p.x p.y :: segDistances sq p (rest.map Prod.snd) := by
        simp [segDistances, CanvasDrawer.segDist, hpt]
      rw [hseg]
      have harith : d.bufferSize - ((w ++ [d.segDist sq p.x p.y]).length + rest.length)
          = d.bufferSize - (w.length + ((t, p) :: rest).length) := by
        simp
        omega
      rw [harith, hpt]
      simp [List.append_assoc]

/-- What `startDrawing` does to the fields the smoothing claims depend on. -/
theorem startDrawing_resets (t0 : ℤ) (p0 : Point) (d : CanvasDrawer) :
    (d.startDrawing t0 p0).brushMode = d.brushMode
    ∧ (d.startDrawing t0 p0).isDrawing = true
    ∧ (d.startDrawing t0 p0).bufferIndex = 0
    ∧ (d.startDrawing t0 p0).bufferSize = d.bufferSize
    ∧ (d.startDrawing t0 p0).distanceBuffer = List.replicate d.distanceBuffer.length 0
    ∧ (d.startDrawing t0 p0).lastX = p0.x
    ∧ (d.startDrawing t0 p0).lastY = p0.y := by
  refine ⟨rfl, rfl, rfl, rfl, ?_, rfl, rfl⟩
  simp [CanvasDrawer.startDrawing, List.map_const']

/-- Claim C1 (code bug evaluation).  Scenario: start a stamp-mode stroke at the
origin, draw to `(10, 0)` then to `(20, 0)` (both segment distances 10).  On
the second call the averages are `avgDistanceBefore = 1/2` and
`avgDistanceAfter = 1` and `numStamps = 1`, and the radius the source computes
for stamp index `i = 0` (line 167, `drawImageRadius`) is `1/4`, whereas the
linear interpolation between the averages at `t = 0/1` — which the spec claims
and the sibling `_drawBrush` formula realises — gives `1/2`. -/
theorem stamp_radius_not_interpolation :
    stampS2.bufferMean = 1/2
    ∧ stampS3.bufferMean = 1
    ∧ numCirclesOf (stampS2.segDist sq100 20 0) stampS2.circlesPerPixel = 1
    ∧ drawImageRadius stampS2.bufferMean stampS3.bufferMean
        (numCirclesOf (stampS2.segDist sq100 20 0) stampS2.circlesPerPixel) 0 = 1/4
    ∧ stampS2.bufferMean
        + (stampS3.bufferMean - stampS2.bufferMean)
          * ((0 : ℚ) / (numCirclesOf (stampS2.segDist sq100 20 0) stampS2.circlesPerPixel : ℚ))
        = 1/2
    ∧ (1/4 : ℚ) ≠ 1/2 := by
  have h2 : stampS2.bufferMean = 1/2 := by
    simp [stampS2, stampS1, CanvasDrawer.draw, CanvasDrawer._drawImage,
      CanvasDrawer.startDrawing, CanvasDrawer.setBrushMode, CanvasDrawer._init,
      CanvasDrawer._drawGrid, freshDrawer, CanvasDrawer.bufferMean, CanvasDrawer.segDist,
      sq100, List.map_const', List.replicate_succ]
    norm_num
  have hd : stampS2.segDist sq100 20 0 = 10 := by
    simp [stampS2, stampS1, CanvasDrawer.draw, CanvasDrawer._drawImage,
      CanvasDrawer.startDrawing, CanvasDrawer.setBrushMode, CanvasDrawer._init,
      CanvasDrawer._drawGrid, freshDrawer, CanvasDrawer.segDist, sq100]
    norm_num
  have hn : numCirclesOf (stampS2.segDist sq100 20 0) stampS2.circlesPerPixel = 1 := by
    rw [hd]
    have hc : stampS2.circlesPerPixel = 1/10 := by
      simp [stampS2, stampS1, CanvasDrawer.draw, CanvasDrawer._drawImage,
        CanvasDrawer.startDrawing, CanvasDrawer.setBrushMode, CanvasDrawer._init,
        CanvasDrawer._drawGrid, freshDrawer]
    rw [hc, numCirclesOf, ratFloor_eq_floor]
    norm_num
  have h3 : stampS3.bufferMean = 1 := by
    simp [stampS3, stampS2, stampS1, CanvasDrawer.draw, CanvasDrawer._drawImage,
      CanvasDrawer.startDrawing, CanvasDrawer.setBrushMode, CanvasDrawer._init,
      CanvasDrawer._drawGrid, freshDrawer, CanvasDrawer.bufferMean, CanvasDrawer.segDist,
      sq100, List.map_const', List.replicate_succ]
    norm_num
  refine ⟨h2, h3, hn, ?_, ?_, by norm_num⟩
  · rw [h2, h3, hn, drawImageRadius]
    norm_num
  · rw [h2, h3, hn]
    norm_num

/-- Claim C2 (code bug evaluation).  A stroke started at clock value 1000
followed by a `draw` at clock value 1500 stores the sample timestamp
`1500 - firstSample.t = 1500 - 0 = 1500` — the absolute clock value — although
the stroke's start timestamp 1000 was recorded in `lastT`, and the elapsed
time the spec claims is `1500 - 1000 = 500 ≠ 1500`. -/
theorem draw_timestamp_is_absolute :
    timeDemo0.lastT = 1000
    ∧ timeDemo1.canvasHistory = [[⟨0, 0, 0⟩, ⟨10, 0, 1500⟩]]
    ∧ (1500 : ℤ) ≠ 1500 - 1000 := by
  refine ⟨rfl, ?_, by decide⟩
  simp [timeDemo1, timeDemo0, CanvasDrawer.draw, CanvasDrawer.startDrawing,
    CanvasDrawer._drawLine, CanvasDrawer._init, CanvasDrawer._drawGrid, freshDrawer,
    appendSample]

/-- Claim C3.  After `startDrawing` resets the smoothing buffer, a single
stamp-mode `draw` whose segment distance is `d` makes the rolling average
(after writing) exactly `d / 20`; more generally, any run of fewer than
`N = 20` stamp-mode `draw` calls leaves the average at the sum of the written
segment distances divided by 20 (zero-fill dilution). -/
theorem rolling_average_diluted (d : CanvasDrawer) (t0 : ℤ) (p0 : Point)
    (sq : ℚ → ℚ) (env : String → Option String) (t : ℤ) (p : Point)
    (ps : List (ℤ × Point))
    (h1 : d.brushMode = true) (h2 : d.bufferSize = 20)
    (h3 : d.distanceBuffer.length = 20) (h4 : ps.length < 20) :
    CanvasDrawer.bufferMean ((d.startDrawing t0 p0).draw sq env t p).1
      = sq ((p.x - p0.x) ^ 2 + (p.y - p0.y) ^ 2) / 20
    ∧ CanvasDrawer.bufferMean (drawMany sq env ps (d.startDrawing t0 p0))
      = (segDistances sq p0 (ps.map Prod.snd)).sum / 20 := by
  obtain ⟨hbm, hdr, hbi, hbs, hdb, hlx, hly⟩ := startDrawing_resets t0 p0 d
  rw [h1] at hbm
  rw [h3] at hdb
  rw [h2] at hbs
  have key : ∀ qs : List (ℤ × Point), qs.length < 20 →
      CanvasDrawer.bufferMean (drawMany sq env qs (d.startDrawing t0 p0))
        = (segDistances sq p0 (qs.map Prod.snd)).sum / 20 := by
    intro qs hqs
    have hlem := drawMany_distanceBuffer sq env qs (d.startDrawing t0 p0) [] hbm hdr
      (by simpa using hbi)
      (by rw [hdb, hbs]; simp)
      (by rw [hbs]; simpa using hqs)
    obtain ⟨hbuf, hsize⟩ := hlem
    rw [CanvasDrawer.bufferMean, hbuf, hsize, hbs]
    have hpt : (⟨(d.startDrawing t0 p0).lastX, (d.startDrawing t0 p0).lastY⟩ : Point) = p0 := by
      rw [hlx, hly]
    rw [hpt]
    simp [List.sum_append, List.sum_replicate]
  refine ⟨?_, key ps h4⟩
  have h1' := key [(t, p)] (by norm_num)
  simp only [drawMany] at h1'
  simpa [segDistances] using h1'

/-- Witness for C3 at a concrete drawer, input point and distance oracle. -/
theorem rolling_average_diluted_witness :
    demoStamp.brushMode = true
    ∧ demoStamp.bufferSize = 20
    ∧ demoStamp.distanceBuffer.length = 20
    ∧ ([((3:ℤ), (⟨1, 0⟩ : Point))].length < 20)
    ∧ (CanvasDrawer.bufferMean
          ((demoStamp.startDrawing 0 ⟨0, 0⟩).draw (fun q => q) envNone 3 ⟨1, 0⟩).1
        = (fun q : ℚ => q) (((1:ℚ) - 0) ^ 2 + ((0:ℚ) - 0) ^ 2) / 20
      ∧ CanvasDrawer.bufferMean
          (drawMany (fun q => q) envNone [(3, ⟨1, 0⟩)] (demoStamp.startDrawing 0 ⟨0, 0⟩))
        = (segDistances (fun q : ℚ => q) ⟨0, 0⟩
            ([((3:ℤ), (⟨1, 0⟩ : Point))].map Prod.snd)).sum / 20) :=
  ⟨rfl, rfl, rfl, by norm_num,
    rolling_average_diluted demoStamp 0 ⟨0, 0⟩ (fun q => q) envNone 3 ⟨1, 0⟩
      [(3, ⟨1, 0⟩)] rfl rfl rfl (by norm_num)⟩

/-- Claim C4.  The stamp count `max(1, floor(d * circlesPerUnit))` computed by
the stamp-mode renderer is at least 1 for any two points — in particular for
coincident points, where `d = 0` — so the divisor `numStamps` in the
interpolation step is never zero. -/
theorem numStamps_ge_one (sq : ℚ → ℚ) (d : CanvasDrawer) (x y : ℚ) :
    1 ≤ numCirclesOf (d.segDist sq x y) d.circlesPerPixel
    ∧ (∀ currentD cpp : ℚ, 1 ≤ numCirclesOf currentD cpp)
    ∧ ((numCirclesOf (d.segDist sq x y) d.circlesPerPixel : ℚ) ≠ 0) := by
  refine ⟨le_max_left _ _, fun _ _ => le_max_left _ _, ?_⟩
  have h : 1 ≤ numCirclesOf (d.segDist sq x y) d.circlesPerPixel := le_max_left _ _
  exact_mod_cast (by omega : numCirclesOf (d.segDist sq x y) d.circlesPerPixel ≠ 0)

/-- Claim C5.  In stamp mode, when the active stamp handle does not resolve to
an image, the `draw` call emits no paint op at all (the stamp rendering is
skipped), does not abort, and still appends the sample to the open stroke,
which stays open. -/
theorem missing_stamp_skipped (sq : ℚ → ℚ) (env : String → Option String) (now : ℤ)
    (p : Point) (d : CanvasDrawer) (last : List Sample)
    (h1 : d.isDrawing = true) (h2 : d.brushMode = true)
    (h3 : getElementById env d.imageId = none)
    (h4 : d.canvasHistory.getLast? = some last) :
    (d.draw sq env now p).2 = []
    ∧ (d.draw sq env now p).1.canvasHistory
        = d.canvasHistory.dropLast
            ++ [last ++ [⟨p.x, p.y, now - ((last.head?.map Sample.t).getD 0)⟩]]
    ∧ (d.draw sq env now p).1.isDrawing = true := by
  simp [CanvasDrawer.draw, CanvasDrawer._drawImage, h1, h2, h3, appendSample, h4]

/-- Witness for C5: a stamp-mode stroke with a null handle and a failing
environment. -/
theorem missing_stamp_skipped_witness :
    demoDrawing.isDrawing = true
    ∧ demoDrawing.brushMode = true
    ∧ getElementById envNone demoDrawing.imageId = none
    ∧ demoDrawing.canvasHistory.getLast? = some [⟨0, 0, 0⟩]
    ∧ ((demoDrawing.draw (fun q => q) envNone 5 ⟨3, 4⟩).2 = []
      ∧ (demoDrawing.draw (fun q => q) envNone 5 ⟨3, 4⟩).1.canvasHistory
          = demoDrawing.canvasHistory.dropLast
              ++ [[⟨0, 0, 0⟩]
                  ++ [⟨(3:ℚ), (4:ℚ),
                        (5:ℤ) - ((([⟨0, 0, 0⟩] : List Sample).head?.map Sample.t).getD 0)⟩]]
      ∧ (demoDrawing.draw (fun q => q) envNone 5 ⟨3, 4⟩).1.isDrawing = true) :=
  ⟨rfl, rfl, rfl, rfl,
    missing_stamp_skipped (fun q => q) envNone 5 ⟨3, 4⟩ demoDrawing [⟨0, 0, 0⟩]
      rfl rfl rfl rfl⟩

/-- Claim C6.  A `draw` call while Idle is a complete no-op: the returned
state is the input state — pixels (no paint ops), stroke history, smoothing
buffer, `lastPoint` and every other field unchanged — and nothing is thrown. -/
theorem draw_idle_noop (sq : ℚ → ℚ) (env : String → Option String) (now : ℤ) (p : Point)
    (d : CanvasDrawer) (h : d.isDrawing = false) :
    d.draw sq env now p = (d, []) := by
  simp [CanvasDrawer.draw, h]

/-- Witness for C6 on a freshly constructed (idle) drawer. -/
theorem draw_idle_noop_witness :
    demoIdle.isDrawing = false
    ∧ demoIdle.draw (fun q => q) (fun _ => none) 5 ⟨1, 2⟩ = (demoIdle, []) :=
  ⟨rfl, draw_idle_noop (fun q => q) (fun _ => none) 5 ⟨1, 2⟩ demoIdle rfl⟩

/-- Claim C7.  `clear()` leaves `getIsDrawing()` unchanged, empties the stroke
history, and touches neither the brush-mode flag nor the grid flag. -/
theorem clear_preserves_flags (d : CanvasDrawer) :
    d.clear.1.getIsDrawing = d.getIsDrawing
    ∧ d.clear.1.canvasHistory = []
    ∧ d.clear.1.brushMode = d.brushMode
    ∧ d.clear.1.showGrid = d.showGrid := by
  cases h : d.showGrid <;>
    simp [CanvasDrawer.clear, CanvasDrawer._clearCanvas, CanvasDrawer._drawGrid,
      CanvasDrawer.getIsDrawing, h]

/-- Claim C8.  Applying `toggleGrid()` twice restores `showGrid` to its
original value; a single toggle flips it, and each toggle repaints from
scratch — its first paint op is a full-surface `clearRect`. -/
theorem toggleGrid_double (d : CanvasDrawer) :
    d.toggleGrid.1.toggleGrid.1.showGrid = d.showGrid
    ∧ d.toggleGrid.1.showGrid = !d.showGrid
    ∧ d.toggleGrid.2.head? = some (RenderOp.clearRect 0 0 d.canvasWidth d.canvasHeight) := by
  cases h : d.showGrid <;>
    simp [CanvasDrawer.toggleGrid, CanvasDrawer._clearCanvas, CanvasDrawer._drawGrid, h]

/-- Claim C9.  `startDrawing` while already Drawing leaves every previously
recorded stroke intact: history is the old history plus one new single-sample
stroke `{x, y, t: 0}`, drawing stays on, the smoothing buffer is reset, and a
subsequent `draw` appends only to the new last stroke. -/
theorem restart_keeps_history (now : ℤ) (p : Point) (sq : ℚ → ℚ)
    (env : String → Option String) (t1 : ℤ) (p1 : Point)
    (d : CanvasDrawer) (h : d.isDrawing = true) :
    (d.startDrawing now p).canvasHistory = d.canvasHistory ++ [[⟨p.x, p.y, 0⟩]]
    ∧ (d.startDrawing now p).getIsDrawing = true
    ∧ (d.startDrawing now p).distanceBuffer = List.replicate d.distanceBuffer.length 0
    ∧ (d.startDrawing now p).bufferIndex = 0
    ∧ ((d.startDrawing now p).draw sq env t1 p1).1.canvasHistory
        = d.canvasHistory ++ [[⟨p.x, p.y, 0⟩, ⟨p1.x, p1.y, t1⟩]] := by
  refine ⟨rfl, rfl, ?_, rfl, ?_⟩
  · simp [CanvasDrawer.startDrawing, List.map_const']
  · cases hb : d.brushMode <;>
      simp [CanvasDrawer.draw, CanvasDrawer.startDrawing, CanvasDrawer._drawImage,
        CanvasDrawer._drawLine, appendSample, hb]

/-- Witness for C9: restarting on a drawer that is already drawing. -/
theorem restart_keeps_history_witness :
    demoDrawing.isDrawing = true
    ∧ ((demoDrawing.startDrawing 7 ⟨1, 1⟩).canvasHistory
          = demoDrawing.canvasHistory ++ [[⟨1, 1, 0⟩]]
      ∧ (demoDrawing.startDrawing 7 ⟨1, 1⟩).getIsDrawing = true
      ∧ (demoDrawing.startDrawing 7 ⟨1, 1⟩).distanceBuffer
          = List.replicate demoDrawing.distanceBuffer.length 0
      ∧ (demoDrawing.startDrawing 7 ⟨1, 1⟩).bufferIndex = 0
      ∧ ((demoDrawing.startDrawing 7 ⟨1, 1⟩).draw (fun q => q) envNone 9 ⟨2, 2⟩).1.canvasHistory
          = demoDrawing.canvasHistory ++ [[⟨1, 1, 0⟩, ⟨2, 2, 9⟩]]) :=
  ⟨rfl, restart_keeps_history 7 ⟨1, 1⟩ (fun q => q) envNone 9 ⟨2, 2⟩ demoDrawing rfl⟩

/-- Claim C10.  Construction fails on a null argument or one that is not an
`HTMLCanvasElement`; on a valid canvas the fresh engine is idle, in line mode,
with the grid shown at size 20, a null stamp handle, a 20-slot smoothing
buffer of zero distances and origin points with cursor 0, and empty history. -/
theorem constructor_spec (w h : ℚ) :
    mkDrawer CanvasArg.nullArg = Except.error "Invalid canvas element provided."
    ∧ mkDrawer (CanvasArg.element false w h) = Except.error "Invalid canvas element provided."
    ∧ ∃ d ops, mkDrawer (CanvasArg.element true w h) = Except.ok (d, ops)
        ∧ d.getIsDrawing = false ∧ d.getBrushMode = false ∧ d.showGrid = true
        ∧ d.gridSize = 20 ∧ d.imageId = none ∧ d.bufferSize = 20
        ∧ d.distanceBuffer = List.replicate 20 0
        ∧ d.pointBuffer = List.replicate 20 ⟨0, 0⟩
        ∧ d.bufferIndex = 0 ∧ d.canvasHistory = [] := by
  refine ⟨rfl, rfl, (freshDrawer w h)._init.1, (freshDrawer w h)._init.2, rfl, ?_⟩
  simp [CanvasDrawer._init, CanvasDrawer._drawGrid, freshDrawer,
    CanvasDrawer.getIsDrawing, CanvasDrawer.getBrushMode]
